import Mathlib

/-!
# Verification of the retail-data-platform ETL core

A shallow embedding, in Lean 4, of the record-level core of the
`retail_data_platform` repository: the cleaning pipeline
(`retail_data_platform/etl/cleaning.py`), the pure transformer and
transaction classifier (`retail_data_platform/etl/transformation.py`),
the batched dimensional loader (`retail_data_platform/etl/loader.py`),
and the run-level orchestration and version tagging
(`retail_data_platform/etl/pipeline.py`).

Python strings are embedded as `List Char`; Python `int` as `Int`/`Nat`;
Python `Decimal` and `float` as `Rat` (exact for every value these
functions manipulate here; only signs, equalities and order comparisons
of these quantities are ever inspected by the embedded code paths).
Database tables are embedded as lists of rows, and the SQL statements
the code issues as pure functions on those lists.
-/

/-- Python strings, embedded as lists of characters. -/
abbrev Str := List Char

/-- Python `str.upper()` (ASCII model, which is what the retail data uses). -/
def pyUpper (s : Str) : Str := s.map Char.toUpper

/-- Python `str.lower()` on a single character, via `Char.toLower`. -/
def pyLowerChar (c : Char) : Char := c.toLower

/-- Python `str.strip()`: drop leading and trailing whitespace. -/
def pyStrip (s : Str) : Str :=
  (s.dropWhile Char.isWhitespace).reverse.dropWhile Char.isWhitespace |>.reverse

/-- Python `s.startswith(p)`. -/
def pyStarts (p s : Str) : Bool := p.isPrefixOf s

/-- Python `p in s` (substring containment). -/
def pyContains (s p : Str) : Bool :=
  match s with
  | [] => p.isPrefixOf ([] : Str)
  | _ :: rest => p.isPrefixOf s || pyContains rest p

/-- Value of a decimal digit character. -/
def digitVal (c : Char) : Nat := c.toNat - 48

/-- Python `int(s)` on a string of decimal digits (most significant first). -/
def digitsToNat (s : Str) : Nat := s.foldl (fun a c => 10 * a + digitVal c) 0

/-- `[A-Z0-9]` character class of the voucher regex. -/
def isUpperOrDigit (c : Char) : Bool := c.isUpper || c.isDigit

/-- One attempt of the voucher-amount regex `GIFT_[A-Z0-9]+_(\d+)` anchored at
the start of `s`: after the literal `GIFT_`, the class `[A-Z0-9]` excludes `_`,
so the greedy `[A-Z0-9]+` is forced to the maximal run, then the literal `_`
and the captured digit run must follow. Returns the captured group. -/
def giftAmountAt (s : Str) : Option Str :=
  match s with
  | 'G' :: 'I' :: 'F' :: 'T' :: '_' :: r1 =>
    if r1.takeWhile isUpperOrDigit = [] then none
    else
      match r1.drop (r1.takeWhile isUpperOrDigit).length with
      | '_' :: r3 =>
        if r3.takeWhile Char.isDigit = [] then none
        else some (r3.takeWhile Char.isDigit)
      | _ => none
  | _ => none

/-- `re.search(r'GIFT_[A-Z0-9]+_(\d+)', sc)`: leftmost match, captured group. -/
def giftAmount (s : Str) : Option Str :=
  match s with
  | [] => none
  | _ :: rest =>
    match giftAmountAt s with
    | some a => some a
    | none => giftAmount rest

/-- The body of `RetailDataTransformer._categorize_stock_code` on its
locals `sc = stock_code.upper().strip()` and `d = description.upper()`.
The Python dict of exact codes is embedded as a chain of equality tests
(dict lookup is order-independent because the keys are distinct). -/
def categorizeUpper (sc d : Str) : Str × Str × Bool :=
  if sc = ("AMAZONFEE").data then (("Fees").data, ("Marketplace Fee").data, false)
  else if sc = ("BANKCHARGES").data then (("Fees").data, ("Bank Charge").data, false)
  else if sc = ("POST").data then (("Shipping").data, ("Postage").data, false)
  else if sc = ("DOT").data then (("Adjustment").data, ("Rounding").data, false)
  else if sc = ("D").data then (("Discount").data, ("Manual Discount").data, false)
  else if sc = ("M").data then (("Adjustment").data, ("Manual").data, false)
  else if sc = ("S").data then (("Services").data, ("Service Charge").data, false)
  else if sc = ("CRUK").data then (("Charity").data, ("Donation").data, false)
  else if sc = ("PADS").data then (("Stationery").data, ("Pads").data, false)
  else if sc = ("C2").data then (("Shipping").data, ("Carrier Surcharge").data, false)
  else if pyStarts (("GIFT_").data) sc = true then
    match giftAmount sc with
    | some amount => (("Gift Voucher").data, ("Voucher £").data ++ amount, true)
    | none => (("Gift Voucher").data, ("Voucher").data, true)
  else if sc = ("DCGSSBOY").data then (("Gift Sets").data, ("Boy").data, true)
  else if sc = ("DCGSSGIRL").data then (("Gift Sets").data, ("Girl").data, true)
  else if pyStarts (("DCGS").data) sc = true then (("Gift Sets").data, ("DCGS").data, true)
  else if pyContains d (("POSTAGE").data) = true ∨ pyContains d (("SHIPPING").data) = true then
    (("Shipping").data, ("Postage").data, false)
  else if pyContains d (("DISCOUNT").data) = true then
    (("Discount").data, ("Promotion").data, false)
  else (("Merchandise").data, ("General").data, false)

/-- `RetailDataTransformer._categorize_stock_code` (pure, no DB): returns
`(category, subcategory, is_gift)`. -/
def categorizeStockCode (stockCode desc : Str) : Str × Str × Bool :=
  categorizeUpper (pyStrip (pyUpper stockCode)) (pyUpper desc)

/-- The body of `RetailDataTransformer._classify_transaction` on its locals
`sc = stock_code.upper()`, `inv = invoice_raw.upper()` and
`is_credit_invoice = inv.startswith("C")` (`unit_price` is a parameter of
the Python function but is never read in its body). -/
def classifyUpper (sc : Str) (qty : Int) (unitPrice : Rat) (inv : Str)
    (category subcategory : Str) (lineTotal : Rat) : Str :=
  let isCreditInvoice := pyStarts (("C").data) inv
  if sc = ("AMAZONFEE").data ∨ sc = ("BANKCHARGES").data ∨ category = ("Fees").data then
    ("FEE").data
  else if sc = ("POST").data ∨ sc = ("C2").data ∨ category = ("Shipping").data then
    ("SHIPPING").data
  else if sc = ("D").data ∨ category = ("Discount").data
      ∨ pyContains (pyUpper subcategory) (("DISCOUNT").data) = true then
    ("DISCOUNT").data
  else if sc = ("CRUK").data ∨ category = ("Charity").data then
    ("DONATION").data
  else if sc = ("DOT").data ∨ sc = ("M").data ∨ sc = ("S").data
      ∨ category = ("Adjustment").data then
    ("ADJUSTMENT").data
  else if category = ("Gift Voucher").data then
    if lineTotal < 0 ∨ qty < 0 ∨ isCreditInvoice = true then ("VOUCHER_REDEMPTION").data
    else ("VOUCHER_SALE").data
  else if category = ("Services").data then ("SERVICE").data
  else if isCreditInvoice = true ∧ qty ≤ 0 then ("RETURN").data
  else if pyStarts (("DCGS").data) sc = true ∨ category = ("Gift Sets").data
      ∨ category = ("Stationery").data ∨ category = ("Merchandise").data then
    if isCreditInvoice = false ∧ qty < 0 then ("ADJUSTMENT").data else ("SALE").data
  else if isCreditInvoice = true ∧ qty ≤ 0 then ("RETURN").data
  else if qty < 0 then ("ADJUSTMENT").data
  else ("SALE").data

/-- `RetailDataTransformer._classify_transaction`. -/
def classifyTransaction (stockCode : Str) (qty : Int) (unitPrice : Rat) (invoiceRaw : Str)
    (category subcategory : Str) (lineTotal : Rat) : Str :=
  classifyUpper (pyUpper stockCode) qty unitPrice (pyUpper invoiceRaw)
    category subcategory lineTotal

/-! ## Dates and times (`datetime.date` / `datetime.datetime`) -/

/-- A `datetime.date`. -/
structure PyDate where
  year : Nat
  month : Nat
  day : Nat
deriving DecidableEq

/-- A `datetime.datetime` (microseconds are never inspected and omitted). -/
structure PyDateTime where
  date : PyDate
  hour : Nat
  minute : Nat
  second : Nat
deriving DecidableEq

/-- Gregorian leap-year rule (`calendar.isleap`, used by `datetime`). -/
def isLeapYear (y : Nat) : Bool := y % 4 = 0 && (y % 100 ≠ 0 || y % 400 = 0)

/-- Days in a month, as enforced by the `datetime.date` constructor. -/
def daysInMonth (y m : Nat) : Nat :=
  if m = 2 then (if isLeapYear y then 29 else 28)
  else if m = 4 ∨ m = 6 ∨ m = 9 ∨ m = 11 then 30
  else 31

/-- The dates `datetime.date` can represent: years 1..9999, valid calendar day. -/
def validDate (d : PyDate) : Bool :=
  1 ≤ d.year && d.year ≤ 9999 && 1 ≤ d.month && d.month ≤ 12
    && 1 ≤ d.day && d.day ≤ daysInMonth d.year d.month

/-- `date.__le__`: lexicographic on (year, month, day). -/
def dateLE (a b : PyDate) : Bool :=
  a.year < b.year || (a.year = b.year
    && (a.month < b.month || (a.month = b.month && a.day ≤ b.day)))

/-! ### `datetime.strptime` for the six formats tried by `_clean_date` -/

/-- `%Y` in `_strptime`: exactly four digits. -/
def parseYear4 : Str → Option (Nat × Str)
  | a :: b :: c :: d :: rest =>
    if a.isDigit && b.isDigit && c.isDigit && d.isDigit then
      some (digitsToNat [a, b, c, d], rest)
    else none
  | _ => none

/-- A one-or-two digit numeric field: the two-digit reading is taken when
`ok2` accepts its value (mirroring `_strptime`'s regex alternations, whose
two-digit alternatives come first), otherwise a single digit accepted by
`ok1`. -/
def parseNum2or1 (ok2 ok1 : Nat → Bool) : Str → Option (Nat × Str)
  | a :: b :: rest =>
    if a.isDigit && b.isDigit && ok2 (10 * digitVal a + digitVal b) then
      some (10 * digitVal a + digitVal b, rest)
    else if a.isDigit && ok1 (digitVal a) then some (digitVal a, b :: rest)
    else none
  | [a] => if a.isDigit && ok1 (digitVal a) then some (digitVal a, []) else none
  | [] => none

/-- `%m`: regex `1[0-2]|0[1-9]|[1-9]`. -/
def parseMonth : Str → Option (Nat × Str) :=
  parseNum2or1 (fun m => 1 ≤ m && m ≤ 12) (fun m => 1 ≤ m)

/-- `%d`: regex `3[01]|[12]\d|0[1-9]|[1-9]`. -/
def parseDay : Str → Option (Nat × Str) :=
  parseNum2or1 (fun d => 1 ≤ d && d ≤ 31) (fun d => 1 ≤ d)

/-- `%H`: regex `2[0-3]|[0-1]\d|\d`. -/
def parseHour : Str → Option (Nat × Str) :=
  parseNum2or1 (fun h => h ≤ 23) (fun _ => true)

/-- `%M` and `%S`: regex `[0-5]\d|\d`. -/
def parseMinSec : Str → Option (Nat × Str) :=
  parseNum2or1 (fun x => x ≤ 59) (fun _ => true)

/-- Consume one expected literal character. -/
def expectChar (c : Char) : Str → Option Str
  | x :: r => if x = c then some r else none
  | [] => none

/-- The `datetime` constructor invoked by `strptime`: rejects invalid
calendar dates (year 0, day past the end of the month, ...). -/
def mkPyDateTime (y mo d h mi s : Nat) : Option PyDateTime :=
  if validDate ⟨y, mo, d⟩ then some ⟨⟨y, mo, d⟩, h, mi, s⟩ else none

/-- `strptime(s, '%Y-%m-%d %H:%M:%S')` (whole string must be consumed). -/
def parseFmtIsoFull (s : Str) : Option PyDateTime :=
  (parseYear4 s).bind fun (y, r) =>
  (expectChar '-' r).bind fun r =>
  (parseMonth r).bind fun (mo, r) =>
  (expectChar '-' r).bind fun r =>
  (parseDay r).bind fun (d, r) =>
  (expectChar ' ' r).bind fun r =>
  (parseHour r).bind fun (h, r) =>
  (expectChar ':' r).bind fun r =>
  (parseMinSec r).bind fun (mi, r) =>
  (expectChar ':' r).bind fun r =>
  (parseMinSec r).bind fun (sec, r) =>
  if r = [] then mkPyDateTime y mo d h mi sec else none

/-- `strptime(s, '%d/%m/%Y %H:%M')`. -/
def parseFmtSlashHM (s : Str) : Option PyDateTime :=
  (parseDay s).bind fun (d, r) =>
  (expectChar '/' r).bind fun r =>
  (parseMonth r).bind fun (mo, r) =>
  (expectChar '/' r).bind fun r =>
  (parseYear4 r).bind fun (y, r) =>
  (expectChar ' ' r).bind fun r =>
  (parseHour r).bind fun (h, r) =>
  (expectChar ':' r).bind fun r =>
  (parseMinSec r).bind fun (mi, r) =>
  if r = [] then mkPyDateTime y mo d h mi 0 else none

/-- `strptime(s, '%d-%m-%Y %H:%M:%S')`. -/
def parseFmtDashHMS (s : Str) : Option PyDateTime :=
  (parseDay s).bind fun (d, r) =>
  (expectChar '-' r).bind fun r =>
  (parseMonth r).bind fun (mo, r) =>
  (expectChar '-' r).bind fun r =>
  (parseYear4 r).bind fun (y, r) =>
  (expectChar ' ' r).bind fun r =>
  (parseHour r).bind fun (h, r) =>
  (expectChar ':' r).bind fun r =>
  (parseMinSec r).bind fun (mi, r) =>
  (expectChar ':' r).bind fun r =>
  (parseMinSec r).bind fun (sec, r) =>
  if r = [] then mkPyDateTime y mo d h mi sec else none

/-- `strptime(s, '%Y-%m-%d')`. -/
def parseFmtIsoDate (s : Str) : Option PyDateTime :=
  (parseYear4 s).bind fun (y, r) =>
  (expectChar '-' r).bind fun r =>
  (parseMonth r).bind fun (mo, r) =>
  (expectChar '-' r).bind fun r =>
  (parseDay r).bind fun (d, r) =>
  if r = [] then mkPyDateTime y mo d 0 0 0 else none

/-- `strptime(s, '%d/%m/%Y')`. -/
def parseFmtSlashDate (s : Str) : Option PyDateTime :=
  (parseDay s).bind fun (d, r) =>
  (expectChar '/' r).bind fun r =>
  (parseMonth r).bind fun (mo, r) =>
  (expectChar '/' r).bind fun r =>
  (parseYear4 r).bind fun (y, r) =>
  if r = [] then mkPyDateTime y mo d 0 0 0 else none

/-- `strptime(s, '%d-%m-%Y')`. -/
def parseFmtDashDate (s : Str) : Option PyDateTime :=
  (parseDay s).bind fun (d, r) =>
  (expectChar '-' r).bind fun r =>
  (parseMonth r).bind fun (mo, r) =>
  (expectChar '-' r).bind fun r =>
  (parseYear4 r).bind fun (y, r) =>
  if r = [] then mkPyDateTime y mo d 0 0 0 else none

/-! ## The cleaner (`retail_data_platform/etl/cleaning.py`) -/

/-- A raw CSV record: every column arrives as text
(`DictReader` yields all header columns, possibly empty). -/
structure RawRecord where
  invoiceNo : Str
  stockCode : Str
  description : Str
  quantity : Str
  invoiceDate : Str
  unitPrice : Str
  customerId : Str
  country : Str
deriving DecidableEq

/-- `MissingValueHandler._is_missing` on CSV text values:
`None` and float NaN cannot occur in the all-text model, so a value is
missing exactly when it is empty or whitespace-only. -/
def isMissingVal (s : Str) : Bool := pyStrip s = []

/-- `MissingValueHandler.handle_missing` with the pipeline's default
strategy map: `Quantity`, `UnitPrice`, `InvoiceDate` → `drop` (record
dropped); `CustomerID`, `Description` → `fill_unknown`; every other
column falls back to the default `fill_unknown`. -/
def handleMissing (r : RawRecord) : Option RawRecord :=
  if isMissingVal r.quantity || isMissingVal r.unitPrice || isMissingVal r.invoiceDate then
    none
  else
    some { r with
      invoiceNo := if isMissingVal r.invoiceNo then ("Unknown").data else r.invoiceNo
      stockCode := if isMissingVal r.stockCode then ("Unknown").data else r.stockCode
      description := if isMissingVal r.description then ("Unknown").data else r.description
      customerId := if isMissingVal r.customerId then ("Unknown").data else r.customerId
      country := if isMissingVal r.country then ("Unknown").data else r.country }

/-- `re.sub(r'\s+', ' ', s)`: each maximal whitespace run becomes one space. -/
def collapseWsAux : Bool → Str → Str
  | _, [] => []
  | prevWs, c :: r =>
    if c.isWhitespace then
      (if prevWs then collapseWsAux true r else ' ' :: collapseWsAux true r)
    else c :: collapseWsAux false r

/-- See `collapseWsAux`. -/
def collapseWs (s : Str) : Str := collapseWsAux false s

/-- Python `str.title()`: a letter is uppercased when the previous character
is not a letter, lowercased otherwise. -/
def pyTitleAux : Bool → Str → Str
  | _, [] => []
  | prevAlpha, c :: r =>
    (if c.isAlpha then (if prevAlpha then c.toLower else c.toUpper) else c)
      :: pyTitleAux c.isAlpha r

/-- See `pyTitleAux`. -/
def pyTitle (s : Str) : Str := pyTitleAux false s

/-- `re.sub(r'[\.\,\-\s]+$', '', s)`. -/
def dropTrailingPunct (s : Str) : Str :=
  (s.reverse.dropWhile fun c => c = '.' || c = ',' || c = '-' || c.isWhitespace).reverse

/-- `RetailDataCleaner._clean_invoice_number`. -/
def cleanInvoiceNumber (s : Str) : Str :=
  if s = [] then [] else pyUpper (pyStrip s)

/-- `RetailDataCleaner._clean_stock_code`: uppercase, then keep only
`\w`, `-`, `.` (`\w` is letters, digits and underscore). -/
def cleanStockCode (s : Str) : Str :=
  if s = [] then []
  else (pyUpper (pyStrip s)).filter fun c => c.isAlphanum || c = '_' || c = '-' || c = '.'

/-- `RetailDataCleaner._clean_description`. -/
def cleanDescription (s : Str) : Str :=
  if s = [] then [] else dropTrailingPunct (pyTitle (pyStrip (collapseWs s)))

/-- Python `float(t)` on a string already filtered to `[0-9.-]`
(so no exponents, infinities or NaN can appear): optional leading minus,
then digits with at most one point and at least one digit. Exact rational
value (binary-float rounding is irrelevant to every use below, which only
truncates to int or compares signs). -/
def parsePyFloat (t : Str) : Option Rat :=
  let signed := t ≠ [] && t.head? = some '-'
  let t1 := if signed then t.drop 1 else t
  let ip := t1.takeWhile Char.isDigit
  let mag : Str → Rat := fun fp =>
    let scale := 10 ^ fp.length
    let m : Int := Int.ofNat (digitsToNat ip * scale + digitsToNat fp)
    mkRat (if signed then -m else m) scale
  match t1.drop ip.length with
  | [] => if ip = [] then none else some (mag [])
  | '.' :: r2 =>
    let fp := r2.takeWhile Char.isDigit
    if r2.drop fp.length = [] && (ip ≠ [] || fp ≠ []) then some (mag fp) else none
  | _ => none

/-- Python `int(q)` on a float: truncation toward zero. -/
def ratTrunc (q : Rat) : Int := Int.tdiv q.num (q.den : Int)

/-- `RetailDataCleaner._clean_quantity`: strip, drop every character
outside `[0-9.-]`, `int(float(...))`; empty or unparseable → 0. -/
def cleanQuantity (s : Str) : Int :=
  if s = [] then 0
  else
    match parsePyFloat ((pyStrip s).filter fun c => c.isDigit || c = '-' || c = '.') with
    | some q => ratTrunc q
    | none => 0

/-- `Decimal(t)` on a currency-filtered string: like `parsePyFloat` but a
leading `+` is also accepted. (Exotic `Decimal` syntax — exponents, `NaN`,
`Infinity` — either cannot survive the digit filters or ends at the same
`0.00` fallback via the `InvalidOperation` handler.) -/
def parsePyDecimal (t : Str) : Option Rat :=
  match t with
  | '+' :: r => parsePyFloat r
  | _ => parsePyFloat t

/-- `ROUND_HALF_EVEN` (the `Decimal` default) to an integer: with
`f = ⌊q⌋` the fractional part `q - f` is compared with `1/2`, which is
done here on the integer side (`2 * (num - f * den)` against `den`). -/
def roundHalfEvenInt (q : Rat) : Int :=
  let d : Int := (q.den : Int)
  let f := Int.fdiv q.num d
  let t := 2 * (q.num - f * d)
  if t < d then f
  else if d < t then f + 1
  else if f % 2 = 0 then f else f + 1

/-- `Decimal.quantize(Decimal('0.01'))` with default rounding:
round `q * 100` half-even, divide by 100 again. -/
def quantize2 (q : Rat) : Rat := mkRat (roundHalfEvenInt (mkRat (q.num * 100) q.den)) 100

/-- `RetailDataCleaner._clean_unit_price`: strip, remove `£$€`, whitespace
and commas, parse as `Decimal`, quantize to 2 places; empty or
unparseable → `0.00`. -/
def cleanUnitPrice (s : Str) : Rat :=
  if s = [] then 0
  else
    match parsePyDecimal ((pyStrip s).filter
        fun c => !(c = '£' || c = '$' || c = '€' || c.isWhitespace || c = ',')) with
    | some q => quantize2 q
    | none => 0

/-- `RetailDataCleaner._clean_customer_id`. -/
def cleanCustomerId (s : Str) : Str :=
  if s = [] then []
  else
    let c := pyStrip s
    if (".0").data.isSuffixOf c then c.take (c.length - 2) else c

/-- `RetailDataCleaner._clean_country`. -/
def cleanCountry (s : Str) : Str :=
  if s = [] then []
  else
    let c := pyTitle (pyStrip s)
    if c = ("Uk").data then ("United Kingdom").data
    else if c = ("Usa").data then ("United States").data
    else if c = ("Uae").data then ("United Arab Emirates").data
    else if c = ("Rsa").data then ("South Africa").data
    else c

/-- `RetailDataCleaner._clean_date`: strip, try the six formats in order.
`none` models the raised `ValueError` (including the `pd.to_datetime`
fallback failing or returning an unusable value): the cleaning-rule
wrapper catches it and leaves the original string in place, which the
date-range validation rule then rejects — no verified claim depends on
inputs that only the pandas fallback could parse. -/
def cleanDate (s : Str) : Option PyDateTime :=
  if s = [] then none
  else
    let t := pyStrip s
    (parseFmtIsoFull t).orElse fun _ =>
    (parseFmtSlashHM t).orElse fun _ =>
    (parseFmtDashHMS t).orElse fun _ =>
    (parseFmtIsoDate t).orElse fun _ =>
    (parseFmtSlashDate t).orElse fun _ =>
    parseFmtDashDate t

/-- A record after `RetailDataCleaner`'s cleaning transforms.
`invoiceDate = none` means the date rule failed and the original string is
still in the field (such records never pass validation). -/
structure CleanedRecord where
  invoiceNo : Str
  stockCode : Str
  description : Str
  quantity : Int
  unitPrice : Rat
  customerId : Str
  country : Str
  invoiceDate : Option PyDateTime
deriving DecidableEq

/-- The cleaning-transforms phase of `RetailDataCleaner.clean`
(all eight columns are present in a CSV record, so every rule fires). -/
def cleanColumns (r : RawRecord) : CleanedRecord where
  invoiceNo := cleanInvoiceNumber r.invoiceNo
  stockCode := cleanStockCode r.stockCode
  description := cleanDescription r.description
  quantity := cleanQuantity r.quantity
  unitPrice := cleanUnitPrice r.unitPrice
  customerId := cleanCustomerId r.customerId
  country := cleanCountry r.country
  invoiceDate := cleanDate r.invoiceDate

/-- `validate_invoice_format`: `re.match(r'^[C]?\d{5,7}[A-Z]?$', x)`. -/
def validInvoiceFormat (s : Str) : Bool :=
  let t := if s.head? = some 'C' then s.drop 1 else s
  let ds := t.takeWhile Char.isDigit
  (5 ≤ ds.length && ds.length ≤ 7) &&
    match t.drop ds.length with
    | [] => true
    | [c] => c.isUpper
    | _ => false

/-- The validation phase of `RetailDataCleaner.clean`: all four rules have
severity ERROR, and the record is rejected when any fails. `today` is the
run date (`date.today()` in `validate_date_range`). -/
def validateCleaned (today : PyDate) (c : CleanedRecord) : Bool :=
  validInvoiceFormat c.invoiceNo && (c.quantity ≠ 0) && (0 ≤ c.unitPrice) &&
    match c.invoiceDate with
    | some dt => dateLE ⟨2009, 1, 1⟩ dt.date && dateLE dt.date today
    | none => false

/-- `RetailDataCleaner.clean`: cleaning transforms, then validation. -/
def cleanerClean (today : PyDate) (r : RawRecord) : Option CleanedRecord :=
  if validateCleaned today (cleanColumns r) then some (cleanColumns r) else none

/-- Steps 1–2 of `DataCleaningPipeline.clean_record`: missing-value
handling, then cleaning and validation. -/
def cleanStage (today : PyDate) (r : RawRecord) : Option CleanedRecord :=
  (handleMissing r).bind (cleanerClean today)

/-! ## `DuplicateHandler` (`cleaning.py`) -/

/-- `'|'.join(values)`. -/
def pipeJoin : List Str → Str
  | [] => []
  | [v] => v
  | v :: rest => v ++ '|' :: pipeJoin rest

/-- The composite key of `DuplicateHandler.is_duplicate`: the stringified
values of the key columns joined with `'|'`. A record is modelled as a
total map from column name to (stringified) value, `''` when absent. -/
def dupCompositeKey (keyCols : List Str) (record : Str → Str) : Str :=
  pipeJoin (keyCols.map record)

/-- One call of `DuplicateHandler.is_duplicate`: returns whether the record
is a duplicate and the updated `seen_keys` set. -/
def isDuplicateStep (keyCols : List Str) (seen : List Str) (record : Str → Str) :
    Bool × List Str :=
  let k := dupCompositeKey keyCols record
  if k ∈ seen then (true, seen) else (false, k :: seen)

/-- A cleaned record viewed as the dict `DuplicateHandler` receives,
restricted to the two configured key columns. -/
def cleanedGet (c : CleanedRecord) (col : Str) : Str :=
  if col = ("InvoiceNo").data then c.invoiceNo
  else if col = ("StockCode").data then c.stockCode
  else []

/-- The pipeline's duplicate key: default
`duplicate_key_columns = ['InvoiceNo', 'StockCode']`. -/
def dupKey (c : CleanedRecord) : Str :=
  dupCompositeKey [("InvoiceNo").data, ("StockCode").data] (cleanedGet c)

/-- `DataCleaningPipeline.clean_record` (steps 1–3; the outlier step only
logs): threading the duplicate handler's `seen_keys` state. -/
def cleanRecordStep (today : PyDate) (seen : List Str) (r : RawRecord) :
    List Str × Option CleanedRecord :=
  match cleanStage today r with
  | none => (seen, none)
  | some c => if dupKey c ∈ seen then (seen, none) else (dupKey c :: seen, some c)

/-- `clean_record` mapped over a record stream with the stateful
duplicate handler (`seen_keys` persists across records and batches). -/
def runCleaningAux (today : PyDate) (seen : List Str) :
    List RawRecord → List (Option CleanedRecord)
  | [] => []
  | r :: rs =>
    (cleanRecordStep today seen r).2
      :: runCleaningAux today (cleanRecordStep today seen r).1 rs

/-- A full run of the cleaning pipeline over a record stream. -/
def runCleaning (today : PyDate) (rs : List RawRecord) : List (Option CleanedRecord) :=
  runCleaningAux today [] rs

/-! ## The pure transformer (`retail_data_platform/etl/transformation.py`,
`RetailDataTransformer.transform`) -/

/-- A record produced by `RetailDataTransformer.transform`. -/
structure TransformedRecord where
  invoiceNo : Nat
  invoiceRaw : Str
  transactionType : Str
  quantity : Int
  unitPrice : Rat
  lineTotal : Rat
  transactionDatetime : Option PyDateTime
  transactionDate : Option PyDate
  customerId : Str
  stockCode : Str
  description : Str
  country : Str
  category : Str
  subcategory : Str
  isGift : Bool
deriving DecidableEq

/-- `RetailDataTransformer._parse_invoice`: returns
`(invoice, invoice_no, is_return)`. `str.isdigit()` is false on the empty
string, so a bare `C` or non-numeric remainder yields `invoice_no = 0`. -/
def parseInvoice (raw : Str) : Str × Nat × Bool :=
  let invoice := pyStrip raw
  let isRet := pyStarts (("C").data) invoice
  let num := if isRet then invoice.drop 1 else invoice
  (invoice, if num ≠ [] && num.all Char.isDigit then digitsToNat num else 0, isRet)

/-- Exact product of two rationals (`Decimal` multiplication). -/
def ratMul (a b : Rat) : Rat := mkRat (a.num * b.num) (a.den * b.den)

/-- An integer as a rational. -/
def intToRat (n : Int) : Rat := mkRat n 1

/-- `RetailDataTransformer.transform` on a record coming out of the
cleaning pipeline (fields already typed by the cleaner). It never rejects
such a record: the `except` branch only catches exceptions. The quantity
keeps its sign (`"quantity": qty,  # sign preserved` in the source) and
`line_total = Decimal(Quantity) * Decimal(UnitPrice)` is signed. For an
unparsed `InvoiceDate` the `datetime.fromisoformat` retry would also fail,
leaving `transaction_date = None` (such records are already rejected by
validation and never reach the transformer in the pipeline). -/
def transformRecord (c : CleanedRecord) : TransformedRecord :=
  let p := parseInvoice c.invoiceNo
  let lineTotal := ratMul (intToRat c.quantity) c.unitPrice
  let stockCode := pyStrip c.stockCode
  let cat := categorizeStockCode stockCode c.description
  { invoiceNo := p.2.1
    invoiceRaw := p.1
    transactionType :=
      classifyTransaction stockCode c.quantity c.unitPrice p.1 cat.1 cat.2.1 lineTotal
    quantity := c.quantity
    unitPrice := c.unitPrice
    lineTotal := lineTotal
    transactionDatetime := c.invoiceDate
    transactionDate := c.invoiceDate.map (fun dt => dt.date)
    customerId := pyStrip (if c.customerId = [] then ("GUEST").data else c.customerId)
    stockCode := stockCode
    description := c.description
    country := c.country
    category := cat.1
    subcategory := cat.2.1
    isGift := cat.2.2 }

/-! ## The batched loader (`retail_data_platform/etl/loader.py`,
`LoaderService.load_fact_rows`) -/

/-- `str(r.get("customer_id") or "GUEST")`. -/
def orGuest (cid : Str) : Str := if cid = [] then ("GUEST").data else cid

/-- The per-product attribute accumulator of `load_fact_rows`
(the dict initialised with
`{"description": "", "category": None, "subcategory": None, "is_gift": False}`). -/
structure ProdAttrs where
  description : Str
  category : Option Str
  subcategory : Option Str
  isGift : Bool
deriving DecidableEq

/-- The initial accumulator value. -/
def defaultProdAttrs : ProdAttrs := ⟨[], none, none, false⟩

/-- One iteration of the `for r in rows` fold over `prod_attrs`: a strictly
longer stripped description replaces the current one; any truthy (non-empty)
category or subcategory overwrites; `is_gift` is OR-merged. -/
def updProdAttrs (cur : ProdAttrs) (r : TransformedRecord) : ProdAttrs :=
  let desc := pyStrip r.description
  let cur1 := if cur.description.length < desc.length then { cur with description := desc } else cur
  let cur2 := if r.category ≠ [] then { cur1 with category := some r.category } else cur1
  let cur3 :=
    if r.subcategory ≠ [] then { cur2 with subcategory := some r.subcategory } else cur2
  if r.isGift then { cur3 with isGift := true } else cur3

/-- The `prod_attrs` dict as a map updated row by row; rows with an empty
(falsy) stock code are skipped. -/
def prodAttrsStep (m : Str → Option ProdAttrs) (r : TransformedRecord) :
    Str → Option ProdAttrs := fun sc =>
  if r.stockCode = [] then m sc
  else if sc = r.stockCode then
    some (updProdAttrs ((m r.stockCode).getD defaultProdAttrs) r)
  else m sc

/-- The complete `prod_attrs` fold of `load_fact_rows` (step 2 of the bulk
path). -/
def prodAttrsMap (rows : List TransformedRecord) : Str → Option ProdAttrs :=
  rows.foldl prodAttrsStep (fun _ => none)

/-- A `fact_sales` row as built by `load_fact_rows` (lineage/audit columns
that no claim mentions are elided). -/
structure FactRow where
  dateKey : Nat
  customerKey : Option Nat
  productKey : Nat
  invoiceNo : Nat
  transactionType : Str
  quantity : Int
  unitPrice : Rat
  lineTotal : Rat
  transactionDatetime : Option PyDateTime
deriving DecidableEq

/-- `tx = r.get("transaction_datetime") or r.get("transaction_date")`,
then a date is converted to a midnight datetime. -/
def rowTxDatetime (r : TransformedRecord) : Option PyDateTime :=
  match r.transactionDatetime with
  | some dt => some dt
  | none => r.transactionDate.map fun d => ⟨d, 0, 0, 0⟩

/-- Step 5 of `load_fact_rows` for one row, given the refreshed surrogate-key
maps: the row is rejected (`none`) exactly when `prod_key is None or
date_key is None`; a missing customer key is tolerated and stored as NULL. -/
def resolveRow (productMap customerMap : Str → Option Nat)
    (dateMap : PyDate → Option Nat) (r : TransformedRecord) : Option FactRow :=
  match productMap r.stockCode, (rowTxDatetime r).bind (fun dt => dateMap dt.date) with
  | some pk, some dk =>
    some { dateKey := dk
           customerKey := customerMap (orGuest r.customerId)
           productKey := pk
           invoiceNo := r.invoiceNo
           transactionType := r.transactionType
           quantity := r.quantity
           unitPrice := r.unitPrice
           lineTotal := r.lineTotal
           transactionDatetime := rowTxDatetime r }
  | _, _ => none

/-- The fact-building loop of `load_fact_rows` (bulk path, successful
commit): the built fact rows in order, and the count of rejected rows. -/
def resolveBatch (productMap customerMap : Str → Option Nat)
    (dateMap : PyDate → Option Nat) (rows : List TransformedRecord) :
    List FactRow × Nat :=
  (rows.filterMap (resolveRow productMap customerMap dateMap),
   rows.countP fun r => (resolveRow productMap customerMap dateMap r).isNone)

/-! ## Date keys (`LoaderService._compute_date_fields`,
`RetailDataTransformer._lookup_date_key`) -/

/-- Decimal digits of `n`, most significant first. -/
def natDigitsBE (n : Nat) : List Nat := (Nat.digits 10 n).reverse

/-- `dt_value.strftime("%Y%m%d")` as its digit string: the year's decimal
digits followed by the zero-padded (`%m`, `%d`) month and day. (For years
below 1000 glibc prints `%Y` without padding; `int()` of the concatenation
is the same number either way because month and day stay two digits.) -/
def strftimeYMD (d : PyDate) : List Nat :=
  natDigitsBE d.year ++ [d.month / 10, d.month % 10, d.day / 10, d.day % 10]

/-- `int(s)` on a digit string. -/
def intOfDigitsBE (l : List Nat) : Nat := Nat.ofDigits 10 l.reverse

/-- `int(dt_value.strftime("%Y%m%d"))` — the `date_key` computed in
`LoaderService._compute_date_fields` and in
`RetailDataTransformer._lookup_date_key`, and stored as the `dim_date`
surrogate key on insert. -/
def dateKeyOf (d : PyDate) : Nat := intOfDigitsBE (strftimeYMD d)

/-! ## Run orchestration (`retail_data_platform/etl/pipeline.py`) -/

/-- `ETLStatus` of `pipeline.py`. -/
inductive ETLStatus where
  | PENDING
  | RUNNING
  | SUCCESS
  | FAILED
  | PARTIAL
  | CANCELLED
deriving DecidableEq

/-- The counters and final status of `ETLMetrics` that the claims mention. -/
structure ETLRunMetrics where
  recordsExtracted : Nat
  recordsCleaned : Nat
  recordsTransformed : Nat
  recordsLoaded : Nat
  recordsRejected : Nat
  status : ETLStatus
deriving DecidableEq

/-- `ETLPipeline.execute` together with `_execute_extract_stage`,
`_process_batch` and `_load_batch_to_warehouse`, for a run that completes
without an unrecoverable failure: every extracted record goes through
`clean_record` (a `None` increments `records_rejected`), every cleaned
record is transformed (the transformer rejects only on exceptions), and
every transformed record is inserted as a fact row and counted in
`records_loaded`. After the stages, `execute` assigns
`self.metrics.status = ETLStatus.SUCCESS` unconditionally — no assignment
to `PARTIAL` exists anywhere in `pipeline.py`, and `FAILED` is reached
only through the exception handler. Batch boundaries do not change any
counter and are elided; the duplicate-handler state spans the whole run. -/
def executeRun (today : PyDate) (records : List RawRecord) : ETLRunMetrics :=
  let outs := runCleaning today records
  let kept := outs.countP fun o => o.isSome
  { recordsExtracted := records.length
    recordsCleaned := kept
    recordsTransformed := kept
    recordsLoaded := kept
    recordsRejected := outs.countP fun o => o.isNone
    status := ETLStatus.SUCCESS }

/-! ## Version tagging (`ETLPipeline._tag_data_with_version`,
`DataTransformationPipeline._tag_data_with_version`) -/

/-- A row of a versioned table: its lineage `batch_id` and its
(nullable) `version_id`. -/
structure VersionedRow where
  batchId : Str
  versionId : Option Nat
deriving DecidableEq

/-- The SQL of both `_tag_data_with_version` implementations, embedded on
one table: `UPDATE retail_dw.fact_sales SET version_id = :version_id ...
WHERE version_id IS NULL` (the dim_customer and dim_product statements are
identical up to the `is_current` filter). The `WHERE` clause contains no
`batch_id` condition. -/
def tagDataWithVersion (versionId : Nat) (table : List VersionedRow) : List VersionedRow :=
  table.map fun row =>
    if row.versionId = none then { row with versionId := some versionId } else row

/-! ## Concrete records used by witnesses and counterexamples -/

/-- A run date for `date.today()` in the date-range validation rule. -/
def today2026 : PyDate := ⟨2026, 10, 12⟩

/-- Scenario 1 of the spec: a simple sale row. -/
def rawSaleRecord : RawRecord where
  invoiceNo := ("536365").data
  stockCode := ("85123A").data
  description := ("WHITE HANGING HEART T-LIGHT HOLDER").data
  quantity := ("2").data
  invoiceDate := ("2010-12-01 08:26:00").data
  unitPrice := ("3.50").data
  customerId := ("17850").data
  country := ("United Kingdom").data

/-- A source row whose quantity is zero: it fails the
`validate_quantity_exists` rule and is rejected by the cleaner. -/
def malformedQuantityRaw : RawRecord where
  invoiceNo := ("536365").data
  stockCode := ("85123A").data
  description := ("WHITE HANGING HEART T-LIGHT HOLDER").data
  quantity := ("0").data
  invoiceDate := ("2010-12-01 08:26:00").data
  unitPrice := ("3.50").data
  customerId := ("17850").data
  country := ("United Kingdom").data

/-- Scenario 4 of the spec: the discount-reversal row
`(InvoiceNo=C567125, StockCode=D, Quantity=-1)`. -/
def discountReversalRaw : RawRecord where
  invoiceNo := ("C567125").data
  stockCode := ("D").data
  description := ("Discount").data
  quantity := ("-1").data
  invoiceDate := ("2011-09-16 12:10:00").data
  unitPrice := ("27.50").data
  customerId := ("15311").data
  country := ("United Kingdom").data

/-- A credit-invoice return row with raw `Quantity = -2`. -/
def returnNeg2Raw : RawRecord where
  invoiceNo := ("C536379").data
  stockCode := ("22629").data
  description := ("SPACEBOY LUNCH BOX").data
  quantity := ("-2").data
  invoiceDate := ("2010-12-01 09:41:00").data
  unitPrice := ("1.95").data
  customerId := ("14527").data
  country := ("United Kingdom").data

/-- Scenario 5 of the spec: a voucher redemption row. -/
def voucherRaw : RawRecord where
  invoiceNo := ("575578").data
  stockCode := ("GIFT_0001_20").data
  description := ("Gift Voucher £20").data
  quantity := ("-1").data
  invoiceDate := ("2011-11-10 11:15:00").data
  unitPrice := ("20.00").data
  customerId := ("12345").data
  country := ("France").data

/-- A transformed record contributing `category = "Fees"` for stock code
`85123A` (field values beyond the product attributes are immaterial). -/
def prodRowFees : TransformedRecord where
  invoiceNo := 1
  invoiceRaw := ("10001").data
  transactionType := ("SALE").data
  quantity := 1
  unitPrice := mkRat 1 1
  lineTotal := mkRat 1 1
  transactionDatetime := none
  transactionDate := none
  customerId := ("GUEST").data
  stockCode := ("85123A").data
  description := ("X").data
  country := ("Unknown").data
  category := ("Fees").data
  subcategory := ("Bank Charge").data
  isGift := false

/-- A later record in the same batch contributing `category = "Discount"`
for the same stock code, with a longer description and `is_gift = true`. -/
def prodRowDiscount : TransformedRecord where
  invoiceNo := 2
  invoiceRaw := ("10002").data
  transactionType := ("SALE").data
  quantity := 1
  unitPrice := mkRat 1 1
  lineTotal := mkRat 1 1
  transactionDatetime := none
  transactionDate := none
  customerId := ("GUEST").data
  stockCode := ("85123A").data
  description := ("A LONGER DESCRIPTION").data
  country := ("Unknown").data
  category := ("Discount").data
  subcategory := ("Promotion").data
  isGift := true

/-- The fact row the batched loader builds from `returnNeg2Raw` when the
product, customer and date keys resolve to 1, 2 and 20101201. -/
def returnNeg2Fact : FactRow where
  dateKey := 20101201
  customerKey := some 2
  productKey := 1
  invoiceNo := 536379
  transactionType := ("RETURN").data
  quantity := -2
  unitPrice := mkRat 39 20
  lineTotal := mkRat (-39) 10
  transactionDatetime := some ⟨⟨2010, 12, 1⟩, 9, 41, 0⟩

/-- A fact-table row of some other, still-untagged batch. -/
def otherBatchRow : VersionedRow where
  batchId := ("other-run-batch").data
  versionId := none

/-- The `last non-empty value` fold over a column of the batch:
what the loader's `if cat: cur["category"] = cat` accumulation computes. -/
def lastTruthy (xs : List Str) : Option Str :=
  xs.foldl (fun acc x => if x ≠ [] then some x else acc) none

/-- The duplicate handler's default key columns. -/
def defaultKeyCols : List Str := [("InvoiceNo").data, ("StockCode").data]

/-- A record (as the dict the duplicate handler receives) with
`InvoiceNo = "A|B"` and `StockCode = "C"`. -/
def pipeRecordA : Str → Str := fun col =>
  if col = ("InvoiceNo").data then ("A|B").data
  else if col = ("StockCode").data then ("C").data
  else []

/-- A record with `InvoiceNo = "A"` and `StockCode = "B|C"`: a different
(InvoiceNo, StockCode) pair whose joined key string coincides with
`pipeRecordA`'s. -/
def pipeRecordB : Str → Str := fun col =>
  if col = ("InvoiceNo").data then ("A").data
  else if col = ("StockCode").data then ("B|C").data
  else []

/-! # Theorems -/

/-- Every row of a batch either becomes a fact row or is counted rejected. -/
theorem length_filterMap_add_countP_none {α β : Type} (f : α → Option β) (l : List α) :
    (l.filterMap f).length + l.countP (fun a => (f a).isNone) = l.length := by
  induction l with
  | nil => simp
  | cons a l ih =>
    rw [List.filterMap_cons, List.countP_cons]
    cases h : f a <;> simp [h] <;> omega

/-- C1 (the code, at the spec's chosen input): a run over a source whose
only row is malformed completes without an unrecoverable failure with
`records_rejected = 1 > 0` and `records_loaded = 0`, yet `execute` ends the
run with status `SUCCESS`, not `PARTIAL` — `pipeline.py` never assigns
`PARTIAL` and requires nothing of `records_rejected` for `SUCCESS`. -/
theorem run_all_rows_malformed_ends_SUCCESS_not_PARTIAL :
    executeRun today2026 [malformedQuantityRaw] =
      { recordsExtracted := 1, recordsCleaned := 0, recordsTransformed := 0,
        recordsLoaded := 0, recordsRejected := 1, status := ETLStatus.SUCCESS } ∧
    ETLStatus.SUCCESS ≠ ETLStatus.PARTIAL := by
  exact ⟨by decide, by decide⟩

/-- C4 counterexample: the version-tagging update also rewrites a
null-version row whose `batch_id` belongs to a different run — the SQL has
no `batch_id` condition, so the row is *not* left unchanged. -/
theorem tag_version_touches_other_batch :
    otherBatchRow.batchId ≠ ("this-run-batch").data ∧
    tagDataWithVersion 7 [otherBatchRow] =
      [{ batchId := ("other-run-batch").data, versionId := some 7 }] ∧
    tagDataWithVersion 7 [otherBatchRow] ≠ [otherBatchRow] := by
  exact ⟨by decide, by decide, by decide⟩

/-- C4 amended: the tagging update sets `version_id` on exactly the rows
whose `version_id` is still null, regardless of their `batch_id`; rows with
a non-null `version_id` are left unchanged. -/
theorem tag_version_sets_exactly_null_version_rows (v : Nat) (table : List VersionedRow)
    (i : Nat) :
    (tagDataWithVersion v table).length = table.length ∧
    (tagDataWithVersion v table)[i]? = (table[i]?).map (fun row =>
      if row.versionId = none then { row with versionId := some v } else row) := by
  refine ⟨by simp [tagDataWithVersion], ?_⟩
  simp [tagDataWithVersion]

/-- C6: for every batch handed to the bulk resolver, the fact rows built
plus the rows rejected equal the rows offered, and a row is rejected
exactly when its product key or its date key resolves to null — a null
customer key never causes rejection. -/
theorem resolver_conservation_and_rejection
    (productMap customerMap : Str → Option Nat) (dateMap : PyDate → Option Nat)
    (rows : List TransformedRecord) :
    ((resolveBatch productMap customerMap dateMap rows).1.length
        + (resolveBatch productMap customerMap dateMap rows).2 = rows.length) ∧
    (∀ r ∈ rows,
      (resolveRow productMap customerMap dateMap r = none ↔
        productMap r.stockCode = none
          ∨ (rowTxDatetime r).bind (fun dt => dateMap dt.date) = none)) := by
  constructor
  · exact length_filterMap_add_countP_none _ rows
  · intro r _
    unfold resolveRow
    cases hp : productMap r.stockCode <;>
      cases hd : (rowTxDatetime r).bind (fun dt => dateMap dt.date) <;>
        simp [hp, hd]

/-- If uppercasing a stock code yields `k`, the categorizer effectively
runs on `pyStrip k`; a hypothesis on the category thus bounds `pyUpper s`. -/
theorem upper_ne_of_cat (s desc k cat : Str)
    (h : (categorizeStockCode s desc).1 = cat)
    (hk : ∀ d, (categorizeUpper (pyStrip k) d).1 ≠ cat) :
    pyUpper s ≠ k := by
  intro he
  have h' : (categorizeUpper (pyStrip (pyUpper s)) (pyUpper desc)).1 = cat := h
  rw [he] at h'
  exact hk (pyUpper desc) h'

/-- The categorizer on the exact code `AMAZONFEE` yields category `Fees`. -/
theorem catUpper_amazonfee (d : Str) :
    (categorizeUpper (pyStrip ("AMAZONFEE").data) d).1 = ("Fees").data := rfl

/-- The categorizer on the exact code `BANKCHARGES` yields category `Fees`. -/
theorem catUpper_bankcharges (d : Str) :
    (categorizeUpper (pyStrip ("BANKCHARGES").data) d).1 = ("Fees").data := rfl

/-- The categorizer on the exact code `POST` yields category `Shipping`. -/
theorem catUpper_post (d : Str) :
    (categorizeUpper (pyStrip ("POST").data) d).1 = ("Shipping").data := rfl

/-- The categorizer on the exact code `C2` yields category `Shipping`. -/
theorem catUpper_c2 (d : Str) :
    (categorizeUpper (pyStrip ("C2").data) d).1 = ("Shipping").data := rfl

/-- For any record whose computed category is `Discount`, the classifier
falls through the Fees and Shipping branches and answers `DISCOUNT` —
unconditionally, whatever the invoice prefix. -/
theorem classifyTransaction_of_discount (s desc inv : Str) (qty : Int) (price lt : Rat)
    (h : (categorizeStockCode s desc).1 = ("Discount").data) :
    classifyTransaction s qty price inv (categorizeStockCode s desc).1
      (categorizeStockCode s desc).2.1 lt = ("DISCOUNT").data := by
  have hA : pyUpper s ≠ ("AMAZONFEE").data :=
    upper_ne_of_cat s desc _ _ h (fun d hc => by
      rw [catUpper_amazonfee d] at hc; exact absurd hc (by decide))
  have hB : pyUpper s ≠ ("BANKCHARGES").data :=
    upper_ne_of_cat s desc _ _ h (fun d hc => by
      rw [catUpper_bankcharges d] at hc; exact absurd hc (by decide))
  have hP : pyUpper s ≠ ("POST").data :=
    upper_ne_of_cat s desc _ _ h (fun d hc => by
      rw [catUpper_post d] at hc; exact absurd hc (by decide))
  have hC : pyUpper s ≠ ("C2").data :=
    upper_ne_of_cat s desc _ _ h (fun d hc => by
      rw [catUpper_c2 d] at hc; exact absurd hc (by decide))
  rw [h]
  show classifyUpper (pyUpper s) qty price (pyUpper inv) (("Discount").data)
    ((categorizeStockCode s desc).2.1) lt = ("DISCOUNT").data
  have hc1 : ¬(pyUpper s = ("AMAZONFEE").data ∨ pyUpper s = ("BANKCHARGES").data
      ∨ (("Discount").data : Str) = ("Fees").data) := by
    rintro (h1 | h1 | h1)
    exacts [hA h1, hB h1, absurd h1 (by decide)]
  have hc2 : ¬(pyUpper s = ("POST").data ∨ pyUpper s = ("C2").data
      ∨ (("Discount").data : Str) = ("Shipping").data) := by
    rintro (h1 | h1 | h1)
    exacts [hP h1, hC h1, absurd h1 (by decide)]
  simp only [classifyUpper]
  rw [if_neg hc1, if_neg hc2]
  simp

/-- C2 counterexample: the record `(InvoiceNo=C567125, StockCode=D,
Quantity=-1)` survives cleaning, its category is `Discount`, and the
classifier answers `DISCOUNT` — not `DISCOUNT_REVERSAL` as claimed; the
string `DISCOUNT_REVERSAL` does not occur in the classifier at all. -/
theorem discount_reversal_counterexample :
    cleanStage today2026 discountReversalRaw = some (cleanColumns discountReversalRaw) ∧
    (transformRecord (cleanColumns discountReversalRaw)).category = ("Discount").data ∧
    (transformRecord (cleanColumns discountReversalRaw)).transactionType = ("DISCOUNT").data ∧
    ("DISCOUNT").data ≠ ("DISCOUNT_REVERSAL").data := by
  exact ⟨by decide, by decide, by decide, by decide⟩

/-- C2 amended: for every transformed record whose category is `Discount`,
the transaction-type classifier returns `DISCOUNT`, regardless of whether
the invoice number begins with `C`; in particular `(InvoiceNo=C567125,
StockCode=D, Quantity=-1)` is classified `DISCOUNT`. -/
theorem discount_category_always_DISCOUNT (c : CleanedRecord)
    (h : (transformRecord c).category = ("Discount").data) :
    (transformRecord c).transactionType = ("DISCOUNT").data :=
  classifyTransaction_of_discount (pyStrip c.stockCode) c.description
    (parseInvoice c.invoiceNo).1 c.quantity c.unitPrice
    (ratMul (intToRat c.quantity) c.unitPrice) h

/-- Witness for `discount_category_always_DISCOUNT` at the spec's
discount-reversal record. -/
theorem discount_category_always_DISCOUNT_witness :
    (transformRecord (cleanColumns discountReversalRaw)).transactionType
      = ("DISCOUNT").data :=
  discount_category_always_DISCOUNT (cleanColumns discountReversalRaw) (by decide)

/-- C3 counterexample: the surviving record with raw `Quantity = -2` is
persisted by the loader with `quantity = -2`, which differs from
`|raw.Quantity| = 2`: the transformer keeps the sign
(`"quantity": qty,  # sign preserved`) and the loader stores it as is. -/
theorem quantity_sign_counterexample :
    cleanStage today2026 returnNeg2Raw = some (cleanColumns returnNeg2Raw) ∧
    (resolveRow (fun _ => some 1) (fun _ => some 2) (fun _ => some 20101201)
        (transformRecord (cleanColumns returnNeg2Raw))).map (fun f => f.quantity)
      = some (-2) ∧
    ((-2 : Int) ≠ (((-2 : Int).natAbs : Nat) : Int)) := by
  exact ⟨by decide, by decide, by decide⟩

/-- C3 amended: for every raw record that survives the cleaning pipeline
and whose transformed row the loader persists, the fact row's quantity
equals the cleaned record's signed `Quantity` (the sign is *not* stripped;
it is also reflected in `transaction_type`), and `unit_price ≥ 0` (the
cleaner's `validate_non_negative_price` rule guarantees it). -/
theorem persisted_quantity_signed_and_price_nonneg
    (today : PyDate) (r : RawRecord) (c : CleanedRecord)
    (hsurv : cleanStage today r = some c)
    (productMap customerMap : Str → Option Nat) (dateMap : PyDate → Option Nat)
    (f : FactRow)
    (hf : resolveRow productMap customerMap dateMap (transformRecord c) = some f) :
    f.quantity = c.quantity ∧ 0 ≤ f.unitPrice := by
  have hval : validateCleaned today c = true := by
    unfold cleanStage at hsurv
    cases hm : handleMissing r with
    | none => rw [hm] at hsurv; simp at hsurv
    | some r2 =>
      rw [hm] at hsurv
      simp only [Option.some_bind] at hsurv
      unfold cleanerClean at hsurv
      split_ifs at hsurv with hv
      · injection hsurv with h2
        subst h2
        exact hv
  have hprice : 0 ≤ c.unitPrice := by
    unfold validateCleaned at hval
    simp only [Bool.and_eq_true, decide_eq_true_eq] at hval
    exact hval.1.2
  simp only [resolveRow] at hf
  cases hp : productMap (transformRecord c).stockCode with
  | none => rw [hp] at hf; simp at hf
  | some pk =>
    cases hd : (rowTxDatetime (transformRecord c)).bind (fun dt => dateMap dt.date) with
    | none => rw [hp, hd] at hf; simp at hf
    | some dk =>
      rw [hp, hd] at hf
      simp at hf
      subst hf
      exact ⟨rfl, hprice⟩

/-- Witness for `persisted_quantity_signed_and_price_nonneg` at the
concrete `Quantity = -2` record and fully-resolving key maps. -/
theorem persisted_quantity_signed_and_price_nonneg_witness :
    returnNeg2Fact.quantity = (cleanColumns returnNeg2Raw).quantity ∧
    0 ≤ returnNeg2Fact.unitPrice :=
  persisted_quantity_signed_and_price_nonneg today2026 returnNeg2Raw
    (cleanColumns returnNeg2Raw) (by decide)
    (fun _ => some 1) (fun _ => some 2) (fun _ => some 20101201)
    returnNeg2Fact (by decide)

/-- The `prod_attrs` dict entry for `sc` is the fold over exactly the
batch rows whose stock code is `sc`. -/
theorem foldl_prodAttrsStep_apply (sc : Str) (hsc : sc ≠ ([] : Str)) :
    ∀ (rows : List TransformedRecord) (m : Str → Option ProdAttrs),
      (rows.foldl prodAttrsStep m) sc =
        (rows.filter (fun r => decide (r.stockCode = sc))).foldl
          (fun o r => some (updProdAttrs (o.getD defaultProdAttrs) r)) (m sc) := by
  intro rows
  induction rows with
  | nil => intro m; rfl
  | cons r rows ih =>
    intro m
    rw [List.foldl_cons]
    by_cases h : r.stockCode = sc
    · have hne : r.stockCode ≠ [] := by rw [h]; exact hsc
      rw [List.filter_cons_of_pos (by simp [h]), List.foldl_cons, ih]
      congr 1
      unfold prodAttrsStep
      rw [if_neg hne, if_pos h.symm, h]
    · rw [List.filter_cons_of_neg (by simp [h]), ih]
      congr 1
      unfold prodAttrsStep
      split_ifs with h1 h2
      · rfl
      · exact absurd h2.symm h
      · rfl

theorem foldl_optattrs_some (l : List TransformedRecord) :
    ∀ a, l.foldl (fun o r => some (updProdAttrs (o.getD defaultProdAttrs) r)) (some a)
      = some (l.foldl updProdAttrs a) := by
  induction l with
  | nil => intro a; rfl
  | cons r l ih =>
    intro a
    rw [List.foldl_cons, List.foldl_cons]
    exact ih (updProdAttrs a r)

theorem upd_category (a : ProdAttrs) (r : TransformedRecord) :
    (updProdAttrs a r).category = if r.category ≠ [] then some r.category else a.category := by
  simp only [updProdAttrs]
  split_ifs <;> rfl

theorem upd_subcategory (a : ProdAttrs) (r : TransformedRecord) :
    (updProdAttrs a r).subcategory =
      if r.subcategory ≠ [] then some r.subcategory else a.subcategory := by
  simp only [updProdAttrs]
  split_ifs <;> rfl

theorem upd_isGift (a : ProdAttrs) (r : TransformedRecord) :
    (updProdAttrs a r).isGift = (a.isGift || r.isGift) := by
  simp only [updProdAttrs]
  split_ifs <;> simp_all

theorem upd_desc (a : ProdAttrs) (r : TransformedRecord) :
    (updProdAttrs a r).description =
      if a.description.length < (pyStrip r.description).length then pyStrip r.description
      else a.description := by
  simp only [updProdAttrs]
  split_ifs <;> rfl

theorem foldl_upd_category (l : List TransformedRecord) :
    ∀ a : ProdAttrs, (l.foldl updProdAttrs a).category =
      (l.map (fun r => r.category)).foldl
        (fun acc x => if x ≠ [] then some x else acc) a.category := by
  induction l with
  | nil => intro a; rfl
  | cons r l ih =>
    intro a
    rw [List.foldl_cons, List.map_cons, List.foldl_cons, ih, upd_category]

theorem foldl_upd_subcategory (l : List TransformedRecord) :
    ∀ a : ProdAttrs, (l.foldl updProdAttrs a).subcategory =
      (l.map (fun r => r.subcategory)).foldl
        (fun acc x => if x ≠ [] then some x else acc) a.subcategory := by
  induction l with
  | nil => intro a; rfl
  | cons r l ih =>
    intro a
    rw [List.foldl_cons, List.map_cons, List.foldl_cons, ih, upd_subcategory]

theorem foldl_upd_isGift (l : List TransformedRecord) :
    ∀ a : ProdAttrs, (l.foldl updProdAttrs a).isGift =
      (a.isGift || l.any (fun r => r.isGift)) := by
  induction l with
  | nil => intro a; simp
  | cons r l ih =>
    intro a
    rw [List.foldl_cons, ih, upd_isGift, List.any_cons]
    simp [Bool.or_assoc]

theorem foldl_upd_desc_mono (l : List TransformedRecord) :
    ∀ a : ProdAttrs, a.description.length ≤ (l.foldl updProdAttrs a).description.length := by
  induction l with
  | nil => intro a; simp
  | cons r l ih =>
    intro a
    rw [List.foldl_cons]
    refine le_trans ?_ (ih (updProdAttrs a r))
    rw [upd_desc]
    split_ifs with h
    · exact le_of_lt h
    · exact le_refl _

theorem foldl_upd_desc_le (l : List TransformedRecord) :
    ∀ (a : ProdAttrs) (r : TransformedRecord), r ∈ l →
      (pyStrip r.description).length ≤ (l.foldl updProdAttrs a).description.length := by
  induction l with
  | nil => intro a r h; cases h
  | cons r0 l ih =>
    intro a r h
    rw [List.foldl_cons]
    rcases List.mem_cons.mp h with h1 | h1
    · subst h1
      refine le_trans ?_ (foldl_upd_desc_mono l (updProdAttrs a r))
      rw [upd_desc]
      split_ifs with h2
      · exact le_refl _
      · omega
    · exact ih (updProdAttrs a r0) r h1

theorem foldl_upd_desc_mem (l : List TransformedRecord) :
    ∀ a : ProdAttrs, (l.foldl updProdAttrs a).description = a.description ∨
      ∃ r ∈ l, (l.foldl updProdAttrs a).description = pyStrip r.description := by
  induction l with
  | nil => intro a; exact Or.inl rfl
  | cons r0 l ih =>
    intro a
    rw [List.foldl_cons]
    rcases ih (updProdAttrs a r0) with h | ⟨r, hr, h⟩
    · rw [h, upd_desc]
      split_ifs with h2
      · exact Or.inr ⟨r0, List.mem_cons_self _ _, rfl⟩
      · exact Or.inl rfl
    · exact Or.inr ⟨r, List.mem_cons_of_mem _ hr, h⟩

theorem prodAttrsMap_eq_fold (rows : List TransformedRecord) (sc : Str)
    (hsc : sc ≠ ([] : Str)) (a : ProdAttrs) (ha : prodAttrsMap rows sc = some a) :
    rows.filter (fun r => decide (r.stockCode = sc)) ≠ [] ∧
    a = (rows.filter (fun r => decide (r.stockCode = sc))).foldl
          updProdAttrs defaultProdAttrs := by
  have h1 := foldl_prodAttrsStep_apply sc hsc rows (fun _ => none)
  rw [prodAttrsMap] at ha
  rw [h1] at ha
  cases hl : rows.filter (fun r => decide (r.stockCode = sc)) with
  | nil => rw [hl] at ha; simp at ha
  | cons r0 l =>
    rw [hl] at ha
    rw [List.foldl_cons] at ha ⊢
    rw [foldl_optattrs_some] at ha
    refine ⟨by simp, ?_⟩
    injection ha with ha2
    exact ha2.symm

/-- C5 amended: the dimension resolver's per-product fold picks the
longest non-empty description, the *last* non-empty category and the
*last* non-empty subcategory seen in batch order, and ORs together the
`is_gift` flags. -/
theorem prod_attrs_fold_semantics (rows : List TransformedRecord) (sc : Str)
    (hsc : sc ≠ ([] : Str)) (a : ProdAttrs) (ha : prodAttrsMap rows sc = some a) :
    (∀ r ∈ rows.filter (fun r => decide (r.stockCode = sc)),
        (pyStrip r.description).length ≤ a.description.length) ∧
    (a.description = ([] : Str) ∨
      ∃ r ∈ rows.filter (fun r => decide (r.stockCode = sc)),
        a.description = pyStrip r.description) ∧
    a.category = lastTruthy ((rows.filter (fun r => decide (r.stockCode = sc))).map
        (fun r => r.category)) ∧
    a.subcategory = lastTruthy ((rows.filter (fun r => decide (r.stockCode = sc))).map
        (fun r => r.subcategory)) ∧
    a.isGift = (rows.filter (fun r => decide (r.stockCode = sc))).any
        (fun r => r.isGift) := by
  obtain ⟨-, rfl⟩ := prodAttrsMap_eq_fold rows sc hsc a ha
  refine ⟨?_, ?_, ?_, ?_, ?_⟩
  · intro r hr
    exact foldl_upd_desc_le _ defaultProdAttrs r hr
  · exact foldl_upd_desc_mem _ defaultProdAttrs
  · rw [foldl_upd_category]
    rfl
  · rw [foldl_upd_subcategory]
    rfl
  · rw [foldl_upd_isGift]
    simp [defaultProdAttrs]

/-- C5 counterexample: two records of one batch contribute categories
`Fees` then `Discount` for the same stock code; the fold keeps `Discount`
(the last non-empty value), not the first non-empty `Fees` as claimed. -/
theorem prod_attrs_counterexample :
    prodAttrsMap [prodRowFees, prodRowDiscount] (("85123A").data)
      = some { description := ("A LONGER DESCRIPTION").data,
               category := some (("Discount").data),
               subcategory := some (("Promotion").data), isGift := true } ∧
    prodRowFees.category = ("Fees").data ∧
    prodRowDiscount.category = ("Discount").data ∧
    some (("Discount").data) ≠ some (("Fees").data) := by
  exact ⟨by decide, by decide, by decide, by decide⟩

/-- Witness for `prod_attrs_fold_semantics` on the two-record batch. -/
theorem prod_attrs_fold_semantics_witness :
    ({ description := ("A LONGER DESCRIPTION").data,
       category := some (("Discount").data),
       subcategory := some (("Promotion").data), isGift := true } : ProdAttrs).category
      = lastTruthy (([prodRowFees, prodRowDiscount].filter
          (fun r => decide (r.stockCode = ("85123A").data))).map (fun r => r.category)) :=
  (prod_attrs_fold_semantics [prodRowFees, prodRowDiscount] (("85123A").data)
    (by decide) _ (by decide)).2.2.1

/-- Witness for `resolver_conservation_and_rejection`: with a product map
that cannot resolve, the concrete row is rejected. -/
theorem resolver_conservation_and_rejection_witness :
    resolveRow (fun _ => none) (fun _ => some 2) (fun _ => some 20101201)
      (transformRecord (cleanColumns returnNeg2Raw)) = none :=
  ((resolver_conservation_and_rejection (fun _ => none) (fun _ => some 2)
      (fun _ => some 20101201) [transformRecord (cleanColumns returnNeg2Raw)]).2
    (transformRecord (cleanColumns returnNeg2Raw))
    (List.mem_singleton.mpr rfl)).mpr (Or.inl rfl)

/-- The `seen_keys` set after one `clean_record` call: the old keys, plus
the key of the record if it survived cleaning and was not a duplicate. -/
theorem seen_after_step (today : PyDate) (seen : List Str) (r0 : RawRecord) (k : Str) :
    k ∈ (cleanRecordStep today seen r0).1 ↔
      (k ∈ seen ∨ ∃ c0, cleanStage today r0 = some c0 ∧ dupKey c0 = k ∧ dupKey c0 ∉ seen) := by
  unfold cleanRecordStep
  cases h0 : cleanStage today r0 with
  | none => simp
  | some c0 =>
    by_cases hm : dupKey c0 ∈ seen
    · simp [hm]
    · simp [hm]
      constructor
      · rintro (h | h)
        exacts [Or.inr h.symm, Or.inl h]
      · rintro (h | h)
        exacts [Or.inr h, Or.inl h.symm]

/-- Unfolding equation for one step of the record stream. -/
theorem runCleaningAux_cons (today : PyDate) (seen : List Str) (r : RawRecord)
    (rs : List RawRecord) :
    runCleaningAux today seen (r :: rs) =
      (cleanRecordStep today seen r).2
        :: runCleaningAux today (cleanRecordStep today seen r).1 rs := rfl

/-- A surviving record is kept exactly when its duplicate key is neither
in the initial `seen_keys` set nor contributed by an earlier surviving
record of the stream. -/
theorem runCleaningAux_kept_iff (today : PyDate) :
    ∀ (rs : List RawRecord) (seen : List Str) (i : Nat) (r : RawRecord) (c : CleanedRecord),
      rs[i]? = some r → cleanStage today r = some c →
      ((runCleaningAux today seen rs)[i]? = some (some c) ↔
        (dupKey c ∉ seen ∧ ∀ j (r' : RawRecord) (c' : CleanedRecord), j < i →
          rs[j]? = some r' → cleanStage today r' = some c' → dupKey c' ≠ dupKey c)) := by
  intro rs
  induction rs with
  | nil => intro seen i r c hr; simp at hr
  | cons r0 rest ih =>
    intro seen i r c hr hc
    rw [runCleaningAux_cons]
    cases i with
    | zero =>
      simp only [List.getElem?_cons_zero] at hr
      injection hr with hr0
      subst hr0
      rw [List.getElem?_cons_zero]
      unfold cleanRecordStep
      rw [hc]
      dsimp only
      by_cases hmem : dupKey c ∈ seen
      · rw [if_pos hmem]
        simp [hmem]
      · rw [if_neg hmem]
        simp only [Option.some.injEq]
        constructor
        · intro _
          exact ⟨hmem, fun j r' c' hj => by omega⟩
        · intro _
          trivial
    | succ i =>
      simp only [List.getElem?_cons_succ] at hr
      rw [List.getElem?_cons_succ]
      rw [ih (cleanRecordStep today seen r0).1 i r c hr hc]
      constructor
      · rintro ⟨hnot, hall⟩
        have hnotseen : dupKey c ∉ seen :=
          fun hk => hnot ((seen_after_step today seen r0 _).mpr (Or.inl hk))
        refine ⟨hnotseen, ?_⟩
        intro j r' c' hj hr' hc' heq
        cases j with
        | zero =>
          simp only [List.getElem?_cons_zero] at hr'
          injection hr' with e
          subst e
          by_cases hm : dupKey c' ∈ seen
          · exact hnotseen (heq ▸ hm)
          · exact hnot ((seen_after_step today seen r0 _).mpr (Or.inr ⟨c', hc', heq, hm⟩))
        | succ j =>
          simp only [List.getElem?_cons_succ] at hr'
          exact hall j r' c' (by omega) hr' hc' heq
      · rintro ⟨hnotseen, hall⟩
        constructor
        · intro hk
          rcases (seen_after_step today seen r0 _).mp hk with hk2 | ⟨c0, h0, he, -⟩
          · exact hnotseen hk2
          · exact hall 0 r0 c0 (by omega) (by simp) h0 he
        · intro j r' c' hj hr' hc'
          exact hall (j + 1) r' c' (by omega) (by simpa using hr') hc'

/-- A record that passes cleaning and validation is either kept or
rejected as a duplicate — no other outcome exists for it. -/
theorem runCleaningAux_out_cases (today : PyDate) :
    ∀ (rs : List RawRecord) (seen : List Str) (i : Nat) (r : RawRecord) (c : CleanedRecord),
      rs[i]? = some r → cleanStage today r = some c →
      ((runCleaningAux today seen rs)[i]? = some (some c) ∨
        (runCleaningAux today seen rs)[i]? = some none) := by
  intro rs
  induction rs with
  | nil => intro seen i r c hr; simp at hr
  | cons r0 rest ih =>
    intro seen i r c hr hc
    rw [runCleaningAux_cons]
    cases i with
    | zero =>
      simp only [List.getElem?_cons_zero] at hr
      injection hr with hr0
      subst hr0
      rw [List.getElem?_cons_zero]
      unfold cleanRecordStep
      rw [hc]
      dsimp only
      by_cases hmem : dupKey c ∈ seen
      · rw [if_pos hmem]
        exact Or.inr rfl
      · rw [if_neg hmem]
        exact Or.inl rfl
    | succ i =>
      simp only [List.getElem?_cons_succ] at hr
      rw [List.getElem?_cons_succ]
      exact ih (cleanRecordStep today seen r0).1 i r c hr hc

/-- C7: in a run of the cleaning pipeline, a record surviving cleaning and
validation is kept exactly when no earlier surviving record has the same
composite key over the configured columns (default `InvoiceNo|StockCode`),
and it is rejected as a duplicate exactly when some earlier surviving
record has the same key — i.e. the first occurrence of a key is kept and
every later record with that key is rejected. -/
theorem cleaning_first_kept_later_dups_rejected (today : PyDate) (rs : List RawRecord)
    (i : Nat) (r : RawRecord) (c : CleanedRecord)
    (hr : rs[i]? = some r) (hc : cleanStage today r = some c) :
    ((runCleaning today rs)[i]? = some (some c) ↔
      ∀ j (r' : RawRecord) (c' : CleanedRecord), j < i → rs[j]? = some r' →
        cleanStage today r' = some c' → dupKey c' ≠ dupKey c) ∧
    ((runCleaning today rs)[i]? = some none ↔
      ∃ j r' c', j < i ∧ rs[j]? = some r' ∧ cleanStage today r' = some c'
        ∧ dupKey c' = dupKey c) := by
  have h1 := runCleaningAux_kept_iff today rs [] i r c hr hc
  have h1' : (runCleaning today rs)[i]? = some (some c) ↔
      ∀ j (r' : RawRecord) (c' : CleanedRecord), j < i → rs[j]? = some r' →
        cleanStage today r' = some c' → dupKey c' ≠ dupKey c := by
    rw [runCleaning, h1]
    simp
  refine ⟨h1', ?_⟩
  have hd := runCleaningAux_out_cases today rs [] i r c hr hc
  rw [← runCleaning] at hd
  constructor
  · intro hnone
    have hnk : ¬ (∀ j (r' : RawRecord) (c' : CleanedRecord), j < i → rs[j]? = some r' →
        cleanStage today r' = some c' → dupKey c' ≠ dupKey c) := by
      intro hall
      have h2 := h1'.mpr hall
      rw [h2] at hnone
      exact absurd hnone (by simp)
    push_neg at hnk
    obtain ⟨j, r', c', hj, hr', hc', he⟩ := hnk
    exact ⟨j, r', c', hj, hr', hc', he⟩
  · rintro ⟨j, r', c', hj, hr', hc', he⟩
    rcases hd with hk | hk
    · exact absurd he ((h1'.mp hk) j r' c' hj hr' hc')
    · exact hk

/-- Witness for `cleaning_first_kept_later_dups_rejected`: two identical
rows; the second is rejected as a duplicate. -/
theorem cleaning_first_kept_later_dups_rejected_witness :
    (runCleaning today2026 [rawSaleRecord, rawSaleRecord])[1]? = some none :=
  (cleaning_first_kept_later_dups_rejected today2026 [rawSaleRecord, rawSaleRecord]
      1 rawSaleRecord (cleanColumns rawSaleRecord) (by decide) (by decide)).2.mpr
    ⟨0, rawSaleRecord, cleanColumns rawSaleRecord, by omega, by decide, by decide, rfl⟩

/-- C10: the duplicate detector identifies records by the string obtained
from joining the stringified key-column values with `'|'`; two records
whose (InvoiceNo, StockCode) pairs differ therefore collide whenever the
joined strings coincide — here `("A|B", "C")` and `("A", "B|C")` both
yield `"A|B|C"`, so after seeing the first record the detector classifies
the second as a duplicate. -/
theorem dup_composite_key_pipe_collision :
    dupCompositeKey defaultKeyCols pipeRecordA = ("A|B|C").data ∧
    dupCompositeKey defaultKeyCols pipeRecordB = ("A|B|C").data ∧
    (pipeRecordA (("InvoiceNo").data), pipeRecordA (("StockCode").data)) ≠
      (pipeRecordB (("InvoiceNo").data), pipeRecordB (("StockCode").data)) ∧
    (isDuplicateStep defaultKeyCols [] pipeRecordA).1 = false ∧
    (isDuplicateStep defaultKeyCols
        (isDuplicateStep defaultKeyCols [] pipeRecordA).2 pipeRecordB).1 = true := by
  exact ⟨by decide, by decide, by decide, by decide, by decide⟩

/-- No month has more than 31 days. -/
theorem daysInMonth_le_31 (y m : Nat) : daysInMonth y m ≤ 31 := by
  unfold daysInMonth
  split_ifs <;> simp_all

/-- `int(d.strftime("%Y%m%d"))` agrees with the arithmetic formula
`year*10000 + month*100 + day` (unconditionally: `%m`/`%d` print exactly
two digits for any value below 100). -/
theorem dateKeyOf_eq (d : PyDate) :
    dateKeyOf d = 10000 * d.year + 100 * d.month + d.day := by
  unfold dateKeyOf intOfDigitsBE strftimeYMD natDigitsBE
  rw [List.reverse_append, List.reverse_reverse]
  rw [Nat.ofDigits_append]
  rw [Nat.ofDigits_digits]
  have h1 : Nat.ofDigits 10
      (List.reverse [d.month / 10, d.month % 10, d.day / 10, d.day % 10]) =
      (d.day % 10) + 10 * (d.day / 10) + 100 * (d.month % 10) + 1000 * (d.month / 10) := by
    simp [Nat.ofDigits_cons, Nat.ofDigits_nil]
    ring
  rw [h1]
  have h2 := Nat.div_add_mod d.month 10
  have h3 := Nat.div_add_mod d.day 10
  have h4 : (List.reverse [d.month / 10, d.month % 10, d.day / 10, d.day % 10]).length = 4 := by
    simp
  rw [h4]
  omega

/-- C9: the date-key function computed by the loader and the date-lookup
equals `year*10000 + month*100 + day`, and it is injective on valid
calendar dates in `[0001-01-01, 9999-12-31]` — hence a bijection between
those dates and its image; every `dim_date` surrogate key is created as
exactly this value of its natural date. -/
theorem date_key_formula_and_bijection :
    (∀ d : PyDate, validDate d = true →
      dateKeyOf d = 10000 * d.year + 100 * d.month + d.day) ∧
    Set.InjOn dateKeyOf { d : PyDate | validDate d = true } ∧
    Set.BijOn dateKeyOf { d : PyDate | validDate d = true }
      (dateKeyOf '' { d : PyDate | validDate d = true }) := by
  have hinj : Set.InjOn dateKeyOf { d : PyDate | validDate d = true } := by
    intro a ha b hb hab
    simp only [Set.mem_setOf_eq] at ha hb
    unfold validDate at ha hb
    simp only [Bool.and_eq_true, decide_eq_true_eq] at ha hb
    have hda := daysInMonth_le_31 a.year a.month
    have hdb := daysInMonth_le_31 b.year b.month
    rw [dateKeyOf_eq, dateKeyOf_eq] at hab
    obtain ⟨⟨⟨⟨⟨ha1, ha2⟩, ha3⟩, ha4⟩, ha5⟩, ha6⟩ := ha
    obtain ⟨⟨⟨⟨⟨hb1, hb2⟩, hb3⟩, hb4⟩, hb5⟩, hb6⟩ := hb
    have : a.year = b.year ∧ a.month = b.month ∧ a.day = b.day := by omega
    obtain ⟨e1, e2, e3⟩ := this
    cases a; cases b
    simp_all
  exact ⟨fun d _ => dateKeyOf_eq d, hinj, hinj.bijOn_image⟩

/-- Witness for `date_key_formula_and_bijection` at 2010-12-01. -/
theorem date_key_formula_and_bijection_witness :
    dateKeyOf ⟨2010, 12, 1⟩ = 20101201 ∧ (⟨2010, 12, 1⟩ : PyDate) = ⟨2010, 12, 1⟩ := by
  constructor
  · rw [date_key_formula_and_bijection.1 ⟨2010, 12, 1⟩ (by decide)]
    norm_num
  · exact date_key_formula_and_bijection.2.1 (by decide) (by decide) rfl

/-- The categorizer on the exact code `D` yields category `Discount`. -/
theorem catUpper_d (d : Str) :
    (categorizeUpper (pyStrip ("D").data) d).1 = ("Discount").data := rfl

/-- The categorizer on the exact code `CRUK` yields category `Charity`. -/
theorem catUpper_cruk (d : Str) :
    (categorizeUpper (pyStrip ("CRUK").data) d).1 = ("Charity").data := rfl

/-- The categorizer on the exact code `DOT` yields category `Adjustment`. -/
theorem catUpper_dot (d : Str) :
    (categorizeUpper (pyStrip ("DOT").data) d).1 = ("Adjustment").data := rfl

/-- The categorizer on the exact code `M` yields category `Adjustment`. -/
theorem catUpper_m (d : Str) :
    (categorizeUpper (pyStrip ("M").data) d).1 = ("Adjustment").data := rfl

/-- The categorizer on the exact code `S` yields category `Services`. -/
theorem catUpper_s (d : Str) :
    (categorizeUpper (pyStrip ("S").data) d).1 = ("Services").data := rfl

/-- `str.upper()` maps a decimal digit to itself, never to `D`. -/
theorem toUpper_ne_D_of_digit (c : Char) (h : c.isDigit = true) : c.toUpper ≠ 'D' := by
  simp only [Char.isDigit, Bool.and_eq_true, decide_eq_true_eq] at h
  have h3 : c.toNat ≤ 57 := h.2
  unfold Char.toUpper
  rw [if_neg (by omega)]
  intro he
  rw [he] at h3
  exact absurd h3 (by decide)

/-- The captured group of the voucher regex consists of digits. -/
theorem giftAmountAt_digits (s a : Str) (h : giftAmountAt s = some a) :
    ∀ c ∈ a, c.isDigit = true := by
  unfold giftAmountAt at h
  split at h
  · split_ifs at h
    split at h
    · split_ifs at h
      injection h with h2
      subst h2
      intro c hc
      exact List.mem_takeWhile_imp hc
    · exact absurd h (by simp)
  · exact absurd h (by simp)

/-- The voucher amount extracted by `re.search(r'GIFT_[A-Z0-9]+_(\\d+)')`
consists of digits only. -/
theorem giftAmount_digits : ∀ (s a : Str), giftAmount s = some a →
    ∀ c ∈ a, c.isDigit = true := by
  intro s
  induction s with
  | nil => intro a h; simp [giftAmount] at h
  | cons x s ih =>
    intro a h
    unfold giftAmount at h
    cases hga : giftAmountAt (x :: s) with
    | some b =>
      rw [hga] at h
      dsimp at h
      injection h with h2
      subst h2
      exact giftAmountAt_digits _ _ hga
    | none =>
      rw [hga] at h
      dsimp at h
      exact ih a h

/-- If a non-empty pattern occurs as a substring, its head character
occurs in the string. -/
theorem pyContains_head_mem (p : Str) (x : Char) :
    ∀ s : Str, pyContains s (x :: p) = true → x ∈ s := by
  intro s
  induction s with
  | nil => intro h; simp [pyContains, List.isPrefixOf] at h
  | cons a s ih =>
    intro h
    unfold pyContains at h
    rw [Bool.or_eq_true] at h
    rcases h with h | h
    · simp only [List.isPrefixOf, Bool.and_eq_true, beq_iff_eq] at h
      rw [h.1]
      exact List.mem_cons_self _ _
    · exact List.mem_cons_of_mem _ (ih h)

/-- A voucher subcategory `Voucher £<digits>` never contains the
substring `DISCOUNT`. -/
theorem voucher_sub_no_discount (amt : Str) (hd : ∀ c ∈ amt, c.isDigit = true) :
    pyContains (pyUpper (("Voucher £").data ++ amt)) (("DISCOUNT").data) = false := by
  rw [Bool.eq_false_iff]
  intro hcon
  have hmem : 'D' ∈ pyUpper (("Voucher £").data ++ amt) :=
    pyContains_head_mem (("ISCOUNT").data) 'D' _ hcon
  unfold pyUpper at hmem
  rw [List.map_append] at hmem
  rcases List.mem_append.mp hmem with h | h
  · exact absurd h (by decide)
  · obtain ⟨c, hc2, he⟩ := List.mem_map.mp h
    exact toUpper_ne_D_of_digit c (hd c hc2) he

/-- If the categorizer answers `Gift Voucher`, the subcategory is either
`Voucher` or `Voucher £` followed by the digits captured by the regex. -/
theorem categorize_gift_voucher_sub (s desc : Str)
    (h : (categorizeStockCode s desc).1 = ("Gift Voucher").data) :
    (categorizeStockCode s desc).2.1 = ("Voucher").data ∨
    ∃ amt, (∀ c ∈ amt, c.isDigit = true) ∧
      (categorizeStockCode s desc).2.1 = ("Voucher £").data ++ amt := by
  unfold categorizeStockCode categorizeUpper at h ⊢
  by_cases h1 : pyStrip (pyUpper s) = ("AMAZONFEE").data
  · rw [if_pos h1] at h
    exact absurd h (by decide)
  rw [if_neg h1] at h ⊢
  by_cases h2 : pyStrip (pyUpper s) = ("BANKCHARGES").data
  · rw [if_pos h2] at h
    exact absurd h (by decide)
  rw [if_neg h2] at h ⊢
  by_cases h3 : pyStrip (pyUpper s) = ("POST").data
  · rw [if_pos h3] at h
    exact absurd h (by decide)
  rw [if_neg h3] at h ⊢
  by_cases h4 : pyStrip (pyUpper s) = ("DOT").data
  · rw [if_pos h4] at h
    exact absurd h (by decide)
  rw [if_neg h4] at h ⊢
  by_cases h5 : pyStrip (pyUpper s) = ("D").data
  · rw [if_pos h5] at h
    exact absurd h (by decide)
  rw [if_neg h5] at h ⊢
  by_cases h6 : pyStrip (pyUpper s) = ("M").data
  · rw [if_pos h6] at h
    exact absurd h (by decide)
  rw [if_neg h6] at h ⊢
  by_cases h7 : pyStrip (pyUpper s) = ("S").data
  · rw [if_pos h7] at h
    exact absurd h (by decide)
  rw [if_neg h7] at h ⊢
  by_cases h8 : pyStrip (pyUpper s) = ("CRUK").data
  · rw [if_pos h8] at h
    exact absurd h (by decide)
  rw [if_neg h8] at h ⊢
  by_cases h9 : pyStrip (pyUpper s) = ("PADS").data
  · rw [if_pos h9] at h
    exact absurd h (by decide)
  rw [if_neg h9] at h ⊢
  by_cases h10 : pyStrip (pyUpper s) = ("C2").data
  · rw [if_pos h10] at h
    exact absurd h (by decide)
  rw [if_neg h10] at h ⊢
  by_cases h11 : pyStarts (("GIFT_").data) (pyStrip (pyUpper s)) = true
  · rw [if_pos h11]
    cases hga : giftAmount (pyStrip (pyUpper s)) with
    | some amt =>
      right
      exact ⟨amt, giftAmount_digits _ amt hga, rfl⟩
    | none =>
      left
      rfl
  · rw [if_neg h11] at h
    split_ifs at h <;> exact absurd h (by decide)

/-- For any record whose computed category is `Gift Voucher`, the
classifier reaches the voucher branch and answers `VOUCHER_REDEMPTION`
exactly when the invoice is a credit invoice, the quantity is negative or
the signed line total is negative — `VOUCHER_SALE` otherwise. -/
theorem classify_gift_voucher_iff (s desc inv : Str) (qty : Int) (price lt : Rat)
    (h : (categorizeStockCode s desc).1 = ("Gift Voucher").data) :
    (classifyTransaction s qty price inv (categorizeStockCode s desc).1
        (categorizeStockCode s desc).2.1 lt = ("VOUCHER_REDEMPTION").data ↔
      (pyStarts (("C").data) (pyUpper inv) = true ∨ qty < 0 ∨ lt < 0)) ∧
    (classifyTransaction s qty price inv (categorizeStockCode s desc).1
        (categorizeStockCode s desc).2.1 lt = ("VOUCHER_SALE").data ↔
      ¬(pyStarts (("C").data) (pyUpper inv) = true ∨ qty < 0 ∨ lt < 0)) := by
  have hA : pyUpper s ≠ ("AMAZONFEE").data :=
    upper_ne_of_cat s desc _ _ h (fun d hc => by
      rw [catUpper_amazonfee d] at hc; exact absurd hc (by decide))
  have hB : pyUpper s ≠ ("BANKCHARGES").data :=
    upper_ne_of_cat s desc _ _ h (fun d hc => by
      rw [catUpper_bankcharges d] at hc; exact absurd hc (by decide))
  have hP : pyUpper s ≠ ("POST").data :=
    upper_ne_of_cat s desc _ _ h (fun d hc => by
      rw [catUpper_post d] at hc; exact absurd hc (by decide))
  have hC2 : pyUpper s ≠ ("C2").data :=
    upper_ne_of_cat s desc _ _ h (fun d hc => by
      rw [catUpper_c2 d] at hc; exact absurd hc (by decide))
  have hD : pyUpper s ≠ ("D").data :=
    upper_ne_of_cat s desc _ _ h (fun d hc => by
      rw [catUpper_d d] at hc; exact absurd hc (by decide))
  have hK : pyUpper s ≠ ("CRUK").data :=
    upper_ne_of_cat s desc _ _ h (fun d hc => by
      rw [catUpper_cruk d] at hc; exact absurd hc (by decide))
  have hT : pyUpper s ≠ ("DOT").data :=
    upper_ne_of_cat s desc _ _ h (fun d hc => by
      rw [catUpper_dot d] at hc; exact absurd hc (by decide))
  have hM : pyUpper s ≠ ("M").data :=
    upper_ne_of_cat s desc _ _ h (fun d hc => by
      rw [catUpper_m d] at hc; exact absurd hc (by decide))
  have hS : pyUpper s ≠ ("S").data :=
    upper_ne_of_cat s desc _ _ h (fun d hc => by
      rw [catUpper_s d] at hc; exact absurd hc (by decide))
  have hsub : pyContains (pyUpper ((categorizeStockCode s desc).2.1))
      (("DISCOUNT").data) = false := by
    rcases categorize_gift_voucher_sub s desc h with hv | ⟨amt, hdig, hv⟩
    · rw [hv]; decide
    · rw [hv]; exact voucher_sub_no_discount amt hdig
  have hc1 : ¬(pyUpper s = ("AMAZONFEE").data ∨ pyUpper s = ("BANKCHARGES").data
      ∨ (("Gift Voucher").data : Str) = ("Fees").data) := by
    rintro (h1 | h1 | h1)
    exacts [hA h1, hB h1, absurd h1 (by decide)]
  have hc2 : ¬(pyUpper s = ("POST").data ∨ pyUpper s = ("C2").data
      ∨ (("Gift Voucher").data : Str) = ("Shipping").data) := by
    rintro (h1 | h1 | h1)
    exacts [hP h1, hC2 h1, absurd h1 (by decide)]
  have hc3 : ¬(pyUpper s = ("D").data
      ∨ (("Gift Voucher").data : Str) = ("Discount").data
      ∨ pyContains (pyUpper ((categorizeStockCode s desc).2.1))
          (("DISCOUNT").data) = true) := by
    rintro (h1 | h1 | h1)
    exacts [hD h1, absurd h1 (by decide), absurd (hsub ▸ h1) (by decide)]
  have hc4 : ¬(pyUpper s = ("CRUK").data
      ∨ (("Gift Voucher").data : Str) = ("Charity").data) := by
    rintro (h1 | h1)
    exacts [hK h1, absurd h1 (by decide)]
  have hc5 : ¬(pyUpper s = ("DOT").data ∨ pyUpper s = ("M").data
      ∨ pyUpper s = ("S").data
      ∨ (("Gift Voucher").data : Str) = ("Adjustment").data) := by
    rintro (h1 | h1 | h1 | h1)
    exacts [hT h1, hM h1, hS h1, absurd h1 (by decide)]
  rw [h]
  simp only [classifyTransaction, classifyUpper]
  rw [if_neg hc1, if_neg hc2, if_neg hc3, if_neg hc4, if_neg hc5]
  simp only [if_true]
  clear h hsub hA hB hP hC2 hD hK hT hM hS hc1 hc2 hc3 hc4 hc5
  by_cases hcond : (lt < 0 ∨ qty < 0 ∨ pyStarts (("C").data) (pyUpper inv) = true)
  · rw [if_pos hcond]
    constructor
    · constructor
      · intro _
        rcases hcond with h1 | h1 | h1
        exacts [Or.inr (Or.inr h1), Or.inr (Or.inl h1), Or.inl h1]
      · intro _
        rfl
    · constructor
      · intro hbad
        exact absurd hbad (by decide)
      · intro hn
        exfalso
        apply hn
        rcases hcond with h1 | h1 | h1
        exacts [Or.inr (Or.inr h1), Or.inr (Or.inl h1), Or.inl h1]
  · rw [if_neg hcond]
    constructor
    · constructor
      · intro hbad
        exact absurd hbad (by decide)
      · intro hr
        exfalso
        apply hcond
        rcases hr with h1 | h1 | h1
        exacts [Or.inr (Or.inr h1), Or.inr (Or.inl h1), Or.inl h1]
    · constructor
      · intro _
        intro hr
        apply hcond
        rcases hr with h1 | h1 | h1
        exacts [Or.inr (Or.inr h1), Or.inr (Or.inl h1), Or.inl h1]
      · intro _
        rfl

/-- C8: for every transformed record whose category is `Gift Voucher`,
the classifier returns `VOUCHER_REDEMPTION` exactly when
`is_credit_invoice` holds or the quantity is negative or the signed line
total is negative, and `VOUCHER_SALE` in every other case. -/
theorem voucher_redemption_iff (c : CleanedRecord)
    (h : (transformRecord c).category = ("Gift Voucher").data) :
    ((transformRecord c).transactionType = ("VOUCHER_REDEMPTION").data ↔
      (pyStarts (("C").data) (pyUpper (transformRecord c).invoiceRaw) = true
        ∨ (transformRecord c).quantity < 0 ∨ (transformRecord c).lineTotal < 0)) ∧
    ((transformRecord c).transactionType = ("VOUCHER_SALE").data ↔
      ¬(pyStarts (("C").data) (pyUpper (transformRecord c).invoiceRaw) = true
        ∨ (transformRecord c).quantity < 0 ∨ (transformRecord c).lineTotal < 0)) :=
  classify_gift_voucher_iff (pyStrip c.stockCode) c.description
    (parseInvoice c.invoiceNo).1 c.quantity c.unitPrice
    (ratMul (intToRat c.quantity) c.unitPrice) h

/-- Witness for `voucher_redemption_iff` at the spec's voucher-redemption
record (`GIFT_0001_20`, quantity −1). -/
theorem voucher_redemption_iff_witness :
    (transformRecord (cleanColumns voucherRaw)).transactionType
      = ("VOUCHER_REDEMPTION").data :=
  (voucher_redemption_iff (cleanColumns voucherRaw) (by decide)).1.mpr
    (Or.inr (Or.inl (by decide)))

example : categorizeStockCode ("D").data ("Discount").data
    = (("Discount").data, ("Manual Discount").data, false) := by decide

example : classifyTransaction ("D").data (-1) (mkRat 55 2) ("C567125").data ("Discount").data
    ("Manual Discount").data (mkRat (-55) 2) = ("DISCOUNT").data := by decide

example : categorizeStockCode ("GIFT_0001_20").data ("Gift Voucher £20").data
    = (("Gift Voucher").data, ("Voucher £20").data, true) := by decide

example : classifyTransaction ("GIFT_0001_20").data (-1) (mkRat 20 1) ("575578").data
    ("Gift Voucher").data ("Voucher £20").data (mkRat (-20) 1)
    = ("VOUCHER_REDEMPTION").data := by decide
